import Mathlib

/-!
Verification development for the AI task-assignment pipeline
(backend/ai: llm_provider.py, issue_agent.py, dev_agent.py,
assign_agent.py, notification_agent.py, graph.py).

The Python code is shallowly embedded: dictionaries become association
lists over a JSON-like value type, the language-model chains
(prompt | llm | JsonOutputParser) become oracle functions supplied as
parameters, and fallible constructors become Except values.  Every
definition is translated from the source file named in its doc comment.
-/

namespace TaskAssigner

/-- JSON-like values stored in Python dictionaries flowing through the
pipeline: None, strings, integers, and lists of strings (the only list
shape the pipeline reads back out of backend responses). -/
inductive PyVal where
  | vNone : PyVal
  | vStr : String → PyVal
  | vInt : Int → PyVal
  | vList : List String → PyVal
  deriving DecidableEq, Repr

/-- A Python dict, embedded as an association list from string keys to
values (keys unique in any dict the interpreter can actually build). -/
abbrev PyDict := List (String × PyVal)

/-- Embeds Python `d.get(k)` (equivalently `d.get(k, None)`): the value at
the first matching key, or None when the key is absent. -/
def pyGet : PyDict → String → PyVal
  | [], _ => .vNone
  | (k0, v0) :: rest, k => if k0 = k then v0 else pyGet rest k

/-- Embeds Python `d.get(k, default)`. -/
def pyGetD (d : PyDict) (k : String) (default : PyVal) : PyVal :=
  match d with
  | [] => default
  | (k0, v0) :: rest => if k0 = k then v0 else pyGetD rest k default

/-- Embeds Python `d[k] = v`: replace the value at an existing key,
otherwise append the new binding. -/
def pySet : PyDict → String → PyVal → PyDict
  | [], k, v => [(k, v)]
  | (k0, v0) :: rest, k, v =>
      if k0 = k then (k0, v) :: rest else (k0, v0) :: pySet rest k v

/-- Embeds Python `str(v)` as used in f-strings when serializing record
fields into prompts (list rendering abridged to comma separation; the
prompt text only feeds the backend oracle). -/
def pyStr : PyVal → String
  | .vNone => "None"
  | .vStr s => s
  | .vInt n => toString n
  | .vList l => String.intercalate ", " l

/-- The string list held by a value, for fields the code joins with
a comma (a non-list value would be a Python TypeError, out of scope). -/
def pyStrList : PyVal → List String
  | .vList l => l
  | _ => []

theorem pyGet_pySet_self (d : PyDict) (k : String) (v : PyVal) :
    pyGet (pySet d k v) k = v := by
  induction d with
  | nil => simp [pySet, pyGet]
  | cons hd tl ih =>
      obtain ⟨k0, v0⟩ := hd
      by_cases h : k0 = k
      · simp [pySet, pyGet, h]
      · simp [pySet, pyGet, h, ih]

theorem pyGet_pySet_ne (d : PyDict) (k k' : String) (v : PyVal)
    (h : k ≠ k') : pyGet (pySet d k v) k' = pyGet d k' := by
  induction d with
  | nil => simp [pySet, pyGet, h]
  | cons hd tl ih =>
      obtain ⟨k0, v0⟩ := hd
      by_cases h0 : k0 = k
      · subst h0
        simp [pySet, pyGet, h]
      · by_cases h1 : k0 = k'
        · subst h1
          have hks : ¬ (k0 = k) := h0
          simp [pySet, pyGet, hks]
        · simp [pySet, pyGet, h0, h1, ih]

/-- Embeds Python string lowercasing as applied by the code to provider
identifiers (ASCII letters; the recognized identifiers are ASCII). -/
def pyLower (s : String) : String :=
  String.mk (s.data.map Char.toLower)

theorem char_toNat_ofNat_valid {n : Nat} (h : n.isValidChar) :
    (Char.ofNat n).toNat = n := by
  simp only [Char.ofNat, h, dif_pos, Char.ofNatAux, Char.toNat]
  simp [UInt32.toNat, BitVec.toNat_ofNatLt]

theorem char_toLower_idem (c : Char) : c.toLower.toLower = c.toLower := by
  by_cases h : c.toNat ≥ 65 ∧ c.toNat ≤ 90
  · have hvalid : (c.toNat + 32).isValidChar := by
      constructor
      omega
    have htn : (Char.ofNat (c.toNat + 32)).toNat = c.toNat + 32 :=
      char_toNat_ofNat_valid hvalid
    have hno : ¬ (c.toNat + 32 ≥ 65 ∧ c.toNat + 32 ≤ 90) := by omega
    unfold Char.toLower
    simp only [h, and_self, if_true]
    rw [htn, if_neg hno]
  · unfold Char.toLower
    simp [h]

theorem pyLower_idem (s : String) : pyLower (pyLower s) = pyLower s := by
  unfold pyLower
  apply congrArg String.mk
  rw [List.map_map]
  exact List.map_congr_left (fun c _ => char_toLower_idem c)

/-- Ambient process environment, as read by os.getenv: None when the
variable is unset. -/
abbrev Env := String → Option String

/-- Python truthiness of an optional string: None and the empty string
are falsy, everything else is truthy (the `if not api_key` idiom). -/
def truthy : Option String → Bool
  | none => false
  | some s => !(s == "")

/-- Embeds os.getenv(var, default): the variable when set, else the
default. -/
def getenvD (env : Env) (var default : String) : String :=
  (env var).getD default

/-- Embeds the Python `a or b` idiom with a string right operand, as in
`model or os.getenv("OPENAI_MODEL", "gpt-4o-mini")`. -/
def pyOrStr (a : Option String) (b : String) : String :=
  if truthy a then a.getD "" else b

/-- Embeds `if not api_key: api_key = os.getenv(VAR)` collapsed to one
expression: keep a truthy explicit value, else read the environment. -/
def pyOrOpt (a b : Option String) : Option String :=
  if truthy a then a else b

/-- The concrete provider configurations create_provider can build
(llm_provider.py: OpenAIProvider, GeminiProvider, OllamaProvider).
Constructing one performs no network call in the source: the
constructors only store credentials and build a client object. -/
inductive LLMProvider where
  | openai (api_key model : String)
  | gemini (api_key model : String)
  | ollama (base_url model : String)
  deriving DecidableEq, Repr

/-- The provider kind an LLMProvider value realizes. -/
def LLMProvider.kind : LLMProvider → String
  | .openai _ _ => "openai"
  | .gemini _ _ => "gemini"
  | .ollama _ _ => "ollama"

/-- Whether an Except value is the error case (a raised ValueError in
the source). -/
def isErr {ε α : Type} : Except ε α → Bool
  | .error _ => true
  | .ok _ => false

/-- Embeds create_provider (llm_provider.py lines 211-258): lowercase
the requested kind; for the cloud kinds openai and gemini fall back to
the ambient credential variable and fail when no credential is usable;
default the model (and, for ollama, the base URL) from the environment;
reject unrecognized kinds.  Error payloads carry the ValueError message
(quotes dropped). -/
def create_provider (env : Env) (provider_type : String)
    (api_key model base_url : Option String) : Except String LLMProvider :=
  let pt := pyLower provider_type
  if pt = "openai" then
    let key := pyOrOpt api_key (env "OPENAI_API_KEY")
    if truthy key then
      .ok (.openai (key.getD "")
        (pyOrStr model (getenvD env "OPENAI_MODEL" "gpt-4o-mini")))
    else
      .error "OpenAI API key is required. Set OPENAI_API_KEY environment variable or pass api_key."
  else if pt = "gemini" then
    let key := pyOrOpt api_key (env "GOOGLE_API_KEY")
    if truthy key then
      .ok (.gemini (key.getD "")
        (pyOrStr model (getenvD env "GEMINI_MODEL" "gemini-1.5-pro")))
    else
      .error "Google API key is required. Set GOOGLE_API_KEY environment variable or pass api_key."
  else if pt = "ollama" then
    .ok (.ollama (pyOrStr base_url (getenvD env "OLLAMA_BASE_URL" "http://localhost:1234"))
      (pyOrStr model (getenvD env "OLLAMA_MODEL" "llama-3.2-1b-instruct")))
  else
    .error ("Unknown provider type: " ++ pt ++ ". Supported: openai, gemini, ollama")

/-- Embeds OpenAIProvider.get_json_completion (llm_provider.py lines
61-76): render the system message as system_prompt plus the format
instructions, pass the user prompt through, invoke the
llm-then-JSON-output-parsing chain, and return the parsed dict exactly
as the chain produced it.  `chain` abstracts `prompt_obj | self.llm |
parser` as a function of the two rendered messages; JsonOutputParser
parses JSON only, so no field or enum validation happens on the way
out. -/
def OpenAIProvider.get_json_completion (chain : String → String → PyDict)
    (prompt system_prompt format_instructions : String) : PyDict :=
  chain (system_prompt ++ "\n\n" ++ format_instructions) prompt

/-- Whether a value is a string. -/
def isStr : PyVal → Bool
  | .vStr _ => true
  | _ => false

/-- Whether a value is an integer. -/
def isInt : PyVal → Bool
  | .vInt _ => true
  | _ => false

/-- Whether a value is a list of strings. -/
def isStrList : PyVal → Bool
  | .vList _ => true
  | _ => false

/-- Embeds the pydantic model IssueAnalysis (issue_agent.py lines
14-19) as the strongest validation its declaration could impose: the
four annotated fields present with their annotated types.  The closed
difficulty set and the 1-10 complexity range appear only inside Field
descriptions, which declare no constraint. -/
def IssueAnalysis.schemaCheck (d : PyDict) : Bool :=
  isStrList (pyGet d "required_skills") && isStr (pyGet d "difficulty") &&
    isStr (pyGet d "summary") && isInt (pyGet d "estimated_complexity")

/-- Modelled from the spec: the closed difficulty set required of every
produced IssueAnalysis, difficulty in {easy, medium, hard, expert}. -/
def difficultyInRange (d : PyDict) : Prop :=
  pyGet d "difficulty" ∈
    [PyVal.vStr "easy", PyVal.vStr "medium", PyVal.vStr "hard", PyVal.vStr "expert"]

/-- Modelled from the spec: estimated_complexity must be an integer in
the interval 1 to 10. -/
def complexityInRange (d : PyDict) : Prop :=
  ∃ n : Int, pyGet d "estimated_complexity" = PyVal.vInt n ∧ 1 ≤ n ∧ n ≤ 10

/-- A backend response whose fields all have the declared types but
whose difficulty is outside the closed set and whose complexity is
outside 1-10. -/
def badIssueDict : PyDict :=
  [("required_skills", PyVal.vList []), ("difficulty", PyVal.vStr "impossible"),
   ("summary", PyVal.vStr "short"), ("estimated_complexity", PyVal.vInt 99)]

/-- A chain whose parsed response is badIssueDict. -/
def badIssueChain : String → String → PyDict := fun _ _ => badIssueDict

/-- C2: the claim fails on the code.  OpenAIProvider.get_json_completion
returns the parsed backend dict unchanged: a response whose difficulty
lies outside {easy, medium, hard, expert} and whose
estimated_complexity is 99 satisfies the declared type-only schema of
IssueAnalysis and is returned as a value rather than a failure. -/
theorem get_json_completion_no_validation :
    OpenAIProvider.get_json_completion badIssueChain "analyze" "system" "fmt"
        = badIssueDict ∧
    IssueAnalysis.schemaCheck badIssueDict = true ∧
    ¬ difficultyInRange badIssueDict ∧
    ¬ complexityInRange badIssueDict := by
  refine ⟨rfl, by decide, by unfold difficultyInRange; decide, ?_⟩
  rintro ⟨n, hn, h1, h10⟩
  have hv : pyGet badIssueDict "estimated_complexity" = PyVal.vInt 99 := by decide
  rw [hv] at hn
  injection hn with hn99
  omega

theorem truthy_pyOrOpt_true (a b : Option String)
    (h : truthy a = true ∨ truthy b = true) :
    truthy (pyOrOpt a b) = true := by
  by_cases ha : truthy a = true
  · simp [pyOrOpt, ha]
  · rcases h with h | h
    · exact absurd h ha
    · simp [pyOrOpt, ha, h]

theorem pyOrOpt_of_falsy (a b : Option String) (h : truthy a = false) :
    pyOrOpt a b = b := by
  simp [pyOrOpt, h]

/-- C5: create_provider raises its configuration ValueError when a
cloud kind (openai or gemini) is requested and neither the explicit
api_key nor the corresponding environment variable supplies a truthy
credential, or when the lowered kind is unrecognized; in the remaining
cases it returns a provider of the requested kind.  Construction makes
no network call in the source.  Conjuncts: cloud guard for openai,
cloud guard for gemini, unknown kind, and success for each of the three
kinds. -/
theorem create_provider_config_guard (env : Env) (k : String)
    (api_key model base_url : Option String) :
    (pyLower k = "openai" → truthy api_key = false →
        truthy (env "OPENAI_API_KEY") = false →
        isErr (create_provider env k api_key model base_url) = true) ∧
    (pyLower k = "gemini" → truthy api_key = false →
        truthy (env "GOOGLE_API_KEY") = false →
        isErr (create_provider env k api_key model base_url) = true) ∧
    (pyLower k ∉ ["openai", "gemini", "ollama"] →
        isErr (create_provider env k api_key model base_url) = true) ∧
    (pyLower k = "openai" →
        (truthy api_key = true ∨ truthy (env "OPENAI_API_KEY") = true) →
        ∃ p, create_provider env k api_key model base_url = .ok p ∧
          p.kind = "openai") ∧
    (pyLower k = "gemini" →
        (truthy api_key = true ∨ truthy (env "GOOGLE_API_KEY") = true) →
        ∃ p, create_provider env k api_key model base_url = .ok p ∧
          p.kind = "gemini") ∧
    (pyLower k = "ollama" →
        ∃ p, create_provider env k api_key model base_url = .ok p ∧
          p.kind = "ollama") := by
  refine ⟨?_, ?_, ?_, ?_, ?_, ?_⟩
  · intro h1 h2 h3
    rw [create_provider]
    simp only [h1, pyOrOpt_of_falsy _ _ h2, h3, if_true, if_false]
    simp [isErr]
  · intro h1 h2 h3
    rw [create_provider]
    have hne : pyLower k ≠ "openai" := by rw [h1]; decide
    simp only [h1, hne, pyOrOpt_of_falsy _ _ h2, h3, if_true, if_false]
    simp [isErr]
  · intro h
    simp only [List.mem_cons, List.mem_singleton, not_or] at h
    obtain ⟨h1, h2, h3⟩ := h
    rw [create_provider]
    simp [h1, h2, h3, isErr]
  · intro h1 h2
    have hk := truthy_pyOrOpt_true api_key (env "OPENAI_API_KEY") h2
    refine ⟨.openai ((pyOrOpt api_key (env "OPENAI_API_KEY")).getD "")
      (pyOrStr model (getenvD env "OPENAI_MODEL" "gpt-4o-mini")), ?_, rfl⟩
    rw [create_provider]
    simp [h1, hk]
  · intro h1 h2
    have hk := truthy_pyOrOpt_true api_key (env "GOOGLE_API_KEY") h2
    have hne : pyLower k ≠ "openai" := by rw [h1]; decide
    refine ⟨.gemini ((pyOrOpt api_key (env "GOOGLE_API_KEY")).getD "")
      (pyOrStr model (getenvD env "GEMINI_MODEL" "gemini-1.5-pro")), ?_, rfl⟩
    rw [create_provider]
    simp [h1, hne, hk]
  · intro h1
    have hne1 : pyLower k ≠ "openai" := by rw [h1]; decide
    have hne2 : pyLower k ≠ "gemini" := by rw [h1]; decide
    refine ⟨.ollama (pyOrStr base_url (getenvD env "OLLAMA_BASE_URL" "http://localhost:1234"))
      (pyOrStr model (getenvD env "OLLAMA_MODEL" "llama-3.2-1b-instruct")), ?_, rfl⟩
    rw [create_provider]
    simp [h1, hne1, hne2]

/-- An empty environment: no variable is set. -/
def env0 : Env := fun _ => none

/-- Witness for C5 at concrete inputs: requesting openai with no
credential anywhere errors, and requesting ollama succeeds with an
ollama provider. -/
theorem create_provider_config_guard_witness :
    isErr (create_provider env0 "openai" none none none) = true ∧
    (∃ p, create_provider env0 "ollama" none none none = .ok p ∧
      p.kind = "ollama") := by
  constructor
  · exact (create_provider_config_guard env0 "openai" none none none).1
      (by decide) rfl rfl
  · exact (create_provider_config_guard env0 "ollama" none none none).2.2.2.2.2
      (by decide)

/-- C10: create_provider lowercases the requested provider kind on
entry, so for every kind string and fixed remaining arguments it
behaves identically on the kind and on its lowercased form, returning
the same provider configuration or the same error. -/
theorem create_provider_case_insensitive (env : Env) (k : String)
    (api_key model base_url : Option String) :
    create_provider env k api_key model base_url =
      create_provider env (pyLower k) api_key model base_url := by
  rw [create_provider, create_provider, pyLower_idem]

/-- Embeds the IssueAnalyzer object (issue_agent.py): its constructor
accepts only an optional api_key (no provider parameter), resolves it
against OPENAI_API_KEY, and hardwires a ChatOpenAI backend with model
gpt-4o-mini. -/
structure IssueAnalyzer where
  api_key : String
  model : String
  deriving DecidableEq, Repr

/-- Embeds IssueAnalyzer.__init__ (issue_agent.py lines 25-42). -/
def IssueAnalyzer.init (env : Env) (api_key : Option String) :
    Except String IssueAnalyzer :=
  let key := pyOrOpt api_key (env "OPENAI_API_KEY")
  if truthy key then .ok { api_key := key.getD "", model := "gpt-4o-mini" }
  else .error "OpenAI API key is required. Set OPENAI_API_KEY environment variable or pass api_key."

/-- Embeds the DeveloperAnalyzer object (dev_agent.py): constructor
accepts only an optional api_key and hardwires ChatOpenAI gpt-4o-mini. -/
structure DeveloperAnalyzer where
  api_key : String
  model : String
  deriving DecidableEq, Repr

/-- Embeds DeveloperAnalyzer.__init__ (dev_agent.py lines 27-44). -/
def DeveloperAnalyzer.init (env : Env) (api_key : Option String) :
    Except String DeveloperAnalyzer :=
  let key := pyOrOpt api_key (env "OPENAI_API_KEY")
  if truthy key then .ok { api_key := key.getD "", model := "gpt-4o-mini" }
  else .error "OpenAI API key is required. Set OPENAI_API_KEY environment variable or pass api_key."

/-- Embeds the AssignmentAgent object (assign_agent.py): constructor
accepts only an optional api_key and hardwires ChatOpenAI gpt-4o-mini. -/
structure AssignmentAgent where
  api_key : String
  model : String
  deriving DecidableEq, Repr

/-- Embeds AssignmentAgent.__init__ (assign_agent.py lines 31-48). -/
def AssignmentAgent.init (env : Env) (api_key : Option String) :
    Except String AssignmentAgent :=
  let key := pyOrOpt api_key (env "OPENAI_API_KEY")
  if truthy key then .ok { api_key := key.getD "", model := "gpt-4o-mini" }
  else .error "OpenAI API key is required. Set OPENAI_API_KEY environment variable or pass api_key."

/-- Embeds the NotificationAgent object (notification_agent.py): the
only stage object whose constructor accepts an LLMProvider. -/
structure NotificationAgent where
  provider : LLMProvider
  deriving DecidableEq, Repr

/-- Embeds NotificationAgent.__init__ (notification_agent.py lines
29-41): keep a supplied provider, otherwise build one via
create_provider from the AI_PROVIDER environment default. -/
def NotificationAgent.init (env : Env) (provider : Option LLMProvider) :
    Except String NotificationAgent :=
  match provider with
  | some p => .ok { provider := p }
  | none =>
      match create_provider env (getenvD env "AI_PROVIDER" "openai") none none none with
      | .ok p => .ok { provider := p }
      | .error e => .error e

/-- C8: the claim fails on the code.  IssueAnalyzer, DeveloperAnalyzer
and AssignmentAgent are constructed from an api_key alone and each
carries the hardwired ChatOpenAI gpt-4o-mini backend; only
NotificationAgent accepts a provider.  graph.py nevertheless invokes
the three constructors with a provider keyword they do not declare. -/
theorem agents_hardwire_openai_backend :
    IssueAnalyzer.init env0 (some "k") = .ok { api_key := "k", model := "gpt-4o-mini" } ∧
    DeveloperAnalyzer.init env0 (some "k") = .ok { api_key := "k", model := "gpt-4o-mini" } ∧
    AssignmentAgent.init env0 (some "k") = .ok { api_key := "k", model := "gpt-4o-mini" } ∧
    NotificationAgent.init env0 (some (.ollama "http://localhost:1234" "m")) =
      .ok { provider := .ollama "http://localhost:1234" "m" } := by
  refine ⟨rfl, rfl, rfl, rfl⟩

/-- Embeds the template-variable dict IssueAnalyzer.analyze passes to
chain.invoke (issue_agent.py lines 74-81); the constant
format_instructions entry is absorbed into the chain oracle. -/
def IssueAnalyzer.invokeArgs (issue : PyDict) : PyDict :=
  [("id", pyGetD issue "id" (PyVal.vStr "")),
   ("title", pyGetD issue "title" (PyVal.vStr "")),
   ("description", pyGetD issue "description" (PyVal.vStr "")),
   ("labels", PyVal.vStr (String.intercalate ", "
      (pyStrList (pyGetD issue "labels" (PyVal.vList []))))),
   ("estimated_hours", pyGetD issue "estimated_hours" (PyVal.vInt 0))]

/-- Embeds IssueAnalyzer.analyze (issue_agent.py lines 64-86): invoke
the chain on the serialized issue fields, then write the original issue
id into the issue_id key of the result, overriding any issue_id the
backend echoed. -/
def IssueAnalyzer.analyze (chain : PyDict → PyDict) (issue : PyDict) : PyDict :=
  pySet (chain (IssueAnalyzer.invokeArgs issue)) "issue_id" (pyGet issue "id")

/-- Embeds the template-variable dict DeveloperAnalyzer.analyze passes
to chain.invoke (dev_agent.py lines 78-88). -/
def DeveloperAnalyzer.invokeArgs (developer : PyDict) : PyDict :=
  [("id", pyGetD developer "id" (PyVal.vStr "")),
   ("name", pyGetD developer "name" (PyVal.vStr "")),
   ("skills", PyVal.vStr (String.intercalate ", "
      (pyStrList (pyGetD developer "skills" (PyVal.vList []))))),
   ("experience_years", pyGetD developer "experience_years" (PyVal.vInt 0)),
   ("current_workload_hours", pyGetD developer "current_workload_hours" (PyVal.vInt 0)),
   ("max_capacity_hours", pyGetD developer "max_capacity_hours" (PyVal.vInt 40)),
   ("recent_performance", pyGetD developer "recent_performance" (PyVal.vStr "unknown")),
   ("preferences", PyVal.vStr (String.intercalate ", "
      (pyStrList (pyGetD developer "preferences" (PyVal.vList [])))))]

/-- Embeds DeveloperAnalyzer.analyze (dev_agent.py lines 68-94): invoke
the chain, then write the original developer id and name into the
result, overriding any values the backend echoed. -/
def DeveloperAnalyzer.analyze (chain : PyDict → PyDict) (developer : PyDict) : PyDict :=
  pySet (pySet (chain (DeveloperAnalyzer.invokeArgs developer))
    "developer_id" (pyGet developer "id")) "developer_name" (pyGet developer "name")

/-- C7: for every backend chain and every input record, the issue
analyzer copies the issue id into the issue_id field of its result and
the developer analyzer copies the developer id and name into the
developer_id and developer_name fields, overriding whatever the chain
returned at those keys (the chain is universally quantified, so this
covers chains that echo conflicting values). -/
theorem analyzers_copy_identity (issueChain devChain : PyDict → PyDict)
    (issue developer : PyDict) :
    pyGet (IssueAnalyzer.analyze issueChain issue) "issue_id" = pyGet issue "id" ∧
    pyGet (DeveloperAnalyzer.analyze devChain developer) "developer_id" =
      pyGet developer "id" ∧
    pyGet (DeveloperAnalyzer.analyze devChain developer) "developer_name" =
      pyGet developer "name" := by
  refine ⟨pyGet_pySet_self _ _ _, ?_, pyGet_pySet_self _ _ _⟩
  unfold DeveloperAnalyzer.analyze
  rw [pyGet_pySet_ne _ _ _ _ (by decide), pyGet_pySet_self]

/-- The parsed assignment response dict (assign_agent.py: the dict the
JsonOutputParser produces for the AssignmentResult schema), holding the
assignments key as a list of per-assignment dicts; the individual
entries are not validated anywhere. -/
structure AssignmentResult where
  assignments : List PyDict
  deriving DecidableEq, Repr

/-- Embeds the issues_text per-issue block (assign_agent.py lines
92-100). -/
def issueLine (i : Nat) (issue : PyDict) : String :=
  "Issue " ++ toString (i + 1) ++ ":\n" ++
  "  ID: " ++ pyStr (pyGet issue "issue_id") ++ "\n" ++
  "  Skills Needed: " ++
    String.intercalate ", " (pyStrList (pyGet issue "required_skills")) ++ "\n" ++
  "  Difficulty: " ++ pyStr (pyGet issue "difficulty") ++ "\n" ++
  "  Complexity: " ++ pyStr (pyGet issue "estimated_complexity") ++ "/10\n" ++
  "  Summary: " ++ pyStr (pyGet issue "summary")

/-- Embeds issues_text (assign_agent.py lines 92-100). -/
def issuesText (issues : List PyDict) : String :=
  String.intercalate "\n\n" (issues.enum.map fun p => issueLine p.1 p.2)

/-- Embeds the developers_text per-developer block (assign_agent.py
lines 103-113). -/
def developerLine (i : Nat) (dev : PyDict) : String :=
  "Developer " ++ toString (i + 1) ++ ":\n" ++
  "  ID: " ++ pyStr (pyGet dev "developer_id") ++ "\n" ++
  "  Name: " ++ pyStr (pyGet dev "developer_name") ++ "\n" ++
  "  Strengths: " ++
    String.intercalate ", " (pyStrList (pyGet dev "strengths")) ++ "\n" ++
  "  Workload: " ++ pyStr (pyGet dev "workload_state") ++ "\n" ++
  "  Available Hours: " ++ pyStr (pyGet dev "availability_hours") ++ "h\n" ++
  "  Skill Match Score: " ++ pyStr (pyGet dev "skill_match_score") ++ "/10\n" ++
  "  Preferences: " ++
    String.intercalate ", " (pyStrList (pyGet dev "preferred_skills"))

/-- Embeds developers_text (assign_agent.py lines 103-113). -/
def developersText (devs : List PyDict) : String :=
  String.intercalate "\n\n" (devs.enum.map fun p => developerLine p.1 p.2)

/-- Embeds AssignmentAgent.assign (assign_agent.py lines 80-121):
serialize both analyzed lists into the user prompt, invoke the chain,
and return the assignments field of the parsed response verbatim.  No
completeness, uniqueness, or assigned_to validation is performed before
returning. -/
def AssignmentAgent.assign (chain : String → String → AssignmentResult)
    (analyzed_issues analyzed_developers : List PyDict) : List PyDict :=
  (chain (issuesText analyzed_issues) (developersText analyzed_developers)).assignments

/-- A concrete analyzed issue supplied to the assignment stage. -/
def analyzedIssue1 : PyDict :=
  [("issue_id", PyVal.vStr "I1"), ("required_skills", PyVal.vList ["python"]),
   ("difficulty", PyVal.vStr "easy"), ("estimated_complexity", PyVal.vInt 3),
   ("summary", PyVal.vStr "fix crash")]

/-- A concrete analyzed developer supplied to the assignment stage; the
only supplied developer identifier is D1. -/
def analyzedDev1 : PyDict :=
  [("developer_id", PyVal.vStr "D1"), ("developer_name", PyVal.vStr "Alice"),
   ("strengths", PyVal.vList ["python"]), ("workload_state", PyVal.vStr "available"),
   ("availability_hours", PyVal.vInt 20), ("skill_match_score", PyVal.vInt 8),
   ("preferred_skills", PyVal.vList ["python"])]

/-- A backend assignment naming a developer identifier (ghost) that was
never supplied. -/
def ghostAssignment : PyDict :=
  [("issue_id", PyVal.vStr "I1"), ("assigned_to", PyVal.vStr "ghost"),
   ("developer_name", PyVal.vStr "Ghost"), ("reason", PyVal.vStr "best fit"),
   ("confidence_score", PyVal.vInt 5)]

/-- A chain whose parsed response assigns the issue to the unknown
developer. -/
def ghostChain : String → String → AssignmentResult :=
  fun _ _ => { assignments := [ghostAssignment] }

/-- A chain whose parsed response contains no assignment at all. -/
def emptyAssignChain : String → String → AssignmentResult :=
  fun _ _ => { assignments := [] }

/-- C1: the claim fails on the code.  AssignmentAgent.assign returns
the backend assignments verbatim: a response assigning the only issue
to a developer identifier that was never supplied is returned rather
than rejected, and a response omitting the issue entirely yields an
empty result instead of a SchemaValidationError. -/
theorem assign_returns_backend_output_unvalidated :
    AssignmentAgent.assign ghostChain [analyzedIssue1] [analyzedDev1] =
      [ghostAssignment] ∧
    pyGet ghostAssignment "assigned_to" ∉
      [analyzedDev1].map (fun d => pyGet d "developer_id") ∧
    AssignmentAgent.assign emptyAssignChain [analyzedIssue1] [analyzedDev1] = [] := by
  refine ⟨rfl, by decide, rfl⟩

/-- The parsed notification response (notification_agent.py
NotificationResult schema, lines 21-23) as JsonOutputParser actually
materializes it: the notifications key holds plain parsed-JSON dicts.
JsonOutputParser returns Dict values and never instantiates the
pydantic NotificationDraft model, so the entries have no dict()
method. -/
structure NotificationResult where
  notifications : List PyDict
  deriving DecidableEq, Repr

/-- Embeds the assignments_text per-assignment block
(notification_agent.py lines 70-77). -/
def assignmentLine (i : Nat) (a : PyDict) : String :=
  "Assignment " ++ toString (i + 1) ++ ":\n" ++
  "  Issue ID: " ++ pyStr (pyGet a "issue_id") ++ "\n" ++
  "  Developer: " ++ pyStr (pyGet a "developer_name") ++ "\n" ++
  "  Reason: " ++ pyStr (pyGet a "reason") ++ "\n" ++
  "  Confidence: " ++ pyStr (pyGet a "confidence_score")

/-- Embeds the user prompt NotificationAgent.generate sends
(notification_agent.py lines 79-83). -/
def notifUserPrompt (assignments : List PyDict) : String :=
  "Generate notification drafts for the following assignments:\n\n" ++
  String.intercalate "\n\n" (assignments.enum.map fun p => assignmentLine p.1 p.2) ++
  "\n\nFor each assignment, provide a Jira ticket draft, a Slack message, and a Messenger update."

/-- The AttributeError raised by draft.dict() at
notification_agent.py line 95: the iterated drafts are plain parsed
dicts, and no parsed-JSON value has a dict attribute (message quotes
dropped). -/
def attributeErrorMsg : String :=
  "AttributeError: dict object has no attribute dict"

/-- Embeds NotificationAgent.generate (notification_agent.py lines
56-99) with its actual dynamic behavior, instrumented with the number
of provider calls made.  An empty assignment list short-circuits to an
empty result with zero calls.  Otherwise one get_json_completion call
is made and the merge loop over the returned drafts runs: its first
iteration has index 0 below the (here nonzero) assignment count and
evaluates draft.dict() on a plain dict, raising AttributeError whenever
at least one draft exists; an empty draft list never enters the loop
body and the empty accumulator is returned.  `chain` abstracts the
provider call as a function of the user prompt (the constant system
prompt and format instructions are absorbed into it). -/
def NotificationAgent.generateCounted (chain : String → NotificationResult)
    (assignments : List PyDict) : Except String (List PyDict) × Nat :=
  if assignments.isEmpty then (.ok [], 0)
  else
    match (chain (notifUserPrompt assignments)).notifications with
    | [] => (.ok [], 1)
    | _ :: _ => (.error attributeErrorMsg, 1)

/-- The outcome NotificationAgent.generate produces: the notification
list it returns, or the exception it raises. -/
def NotificationAgent.generate (chain : String → NotificationResult)
    (assignments : List PyDict) : Except String (List PyDict) :=
  (NotificationAgent.generateCounted chain assignments).1

/-- C6: generate on an empty assignment list returns the empty list
and performs no provider call, for every backend chain. -/
theorem generate_empty_no_provider_call (chain : String → NotificationResult) :
    NotificationAgent.generateCounted chain [] = (.ok [], 0) := by
  rfl

/-- A concrete parsed draft dict, shaped as the schema describes. -/
def draftDict1 : PyDict :=
  [("jira_title", PyVal.vStr "Fix crash"),
   ("jira_description", PyVal.vStr "Crash on startup"),
   ("jira_priority", PyVal.vStr "High"),
   ("slack_message", PyVal.vStr "You got a task"),
   ("messenger_message", PyVal.vStr "New task assigned")]

/-- A backend chain that returns exactly one draft regardless of how
many assignments the prompt described. -/
def oneDraftChain : String → NotificationResult :=
  fun _ => { notifications := [draftDict1] }

/-- A concrete assignment dict. -/
def assignW : PyDict :=
  [("issue_id", PyVal.vStr "I1"), ("jira_title", PyVal.vStr "Assignment title")]

/-- A first concrete assignment for the two-assignment run. -/
def assignA : PyDict :=
  [("issue_id", PyVal.vStr "I1"), ("assigned_to", PyVal.vStr "D1"),
   ("developer_name", PyVal.vStr "Alice"), ("reason", PyVal.vStr "skill fit"),
   ("confidence_score", PyVal.vInt 7)]

/-- A second concrete assignment for the two-assignment run. -/
def assignB : PyDict :=
  [("issue_id", PyVal.vStr "I2"), ("assigned_to", PyVal.vStr "D1"),
   ("developer_name", PyVal.vStr "Alice"), ("reason", PyVal.vStr "availability"),
   ("confidence_score", PyVal.vInt 6)]

/-- C3: the claim fails on the code.  With two assignments and a
backend response carrying a single draft, generate does not return
exactly two drafts; it returns nothing at all: the merge loop raises
AttributeError on its first iteration, because the parsed draft is a
plain dict and draft.dict() is not defined on it. -/
theorem generate_short_response_raises :
    NotificationAgent.generate oneDraftChain [assignA, assignB] =
      .error attributeErrorMsg ∧
    [assignA, assignB].length = 2 := by
  exact ⟨rfl, rfl⟩

/-- C9: the claim fails on the code.  The positional dict-update merge
the loop was written to perform (its own comment and the docstring
promise merged notification dicts) never happens: draft.dict() raises
AttributeError on the first iteration whenever at least one draft
exists, so generate raises at the claimed merge input, and the only
value it ever returns, over every chain and assignment list, is the
empty list. -/
theorem generate_never_returns_merged :
    NotificationAgent.generate oneDraftChain [assignW] = .error attributeErrorMsg ∧
    (∀ (chain : String → NotificationResult) (assignments : List PyDict),
      NotificationAgent.generate chain assignments = .ok [] ∨
      NotificationAgent.generate chain assignments = .error attributeErrorMsg) := by
  constructor
  · rfl
  · intro chain assignments
    unfold NotificationAgent.generate NotificationAgent.generateCounted
    by_cases h : assignments.isEmpty
    · rw [if_pos h]
      left
      rfl
    · rw [if_neg h]
      cases hd : (chain (notifUserPrompt assignments)).notifications with
      | nil =>
          left
          rfl
      | cons d rest =>
          right
          rfl

/-- Embeds WorkflowState (graph.py lines 15-25): the shared record the
graph threads through its nodes. -/
structure WorkflowState where
  issues : List PyDict
  developers : List PyDict
  analyzed_issues : List PyDict
  analyzed_developers : List PyDict
  assignments : List PyDict
  notifications : List PyDict
  api_key : Option String
  model_name : Option String
  provider_type : String

/-- The TypeError raised at graph.py line 40, where analyze_issues_node
constructs IssueAnalyzer(provider=provider): IssueAnalyzer.__init__
declares only api_key (message quotes dropped). -/
def issueAnalyzerTypeError : String :=
  "TypeError: IssueAnalyzer.__init__() got an unexpected keyword argument provider"

/-- The TypeError raised at graph.py line 64 for
DeveloperAnalyzer(provider=provider). -/
def devAnalyzerTypeError : String :=
  "TypeError: DeveloperAnalyzer.__init__() got an unexpected keyword argument provider"

/-- The TypeError raised at graph.py line 88 for
AssignmentAgent(provider=provider). -/
def assignAgentTypeError : String :=
  "TypeError: AssignmentAgent.__init__() got an unexpected keyword argument provider"

/-- Embeds analyze_issues_node (graph.py lines 28-49) with its actual
dynamic behavior: build a provider from the state configuration via
create_provider (propagating its ValueError), then construct
IssueAnalyzer(provider=provider) — which raises TypeError, since
IssueAnalyzer.__init__ accepts only api_key — before any issue is
analyzed or the analyzed_issues field is written. -/
def analyze_issues_node (env : Env) (s : WorkflowState) :
    Except String WorkflowState :=
  match create_provider env s.provider_type s.api_key s.model_name none with
  | .error e => .error e
  | .ok _ => .error issueAnalyzerTypeError

/-- Embeds analyze_developers_node (graph.py lines 52-73): the same
provider construction followed by DeveloperAnalyzer(provider=provider),
which raises TypeError before any developer is analyzed. -/
def analyze_developers_node (env : Env) (s : WorkflowState) :
    Except String WorkflowState :=
  match create_provider env s.provider_type s.api_key s.model_name none with
  | .error e => .error e
  | .ok _ => .error devAnalyzerTypeError

/-- Embeds assign_tasks_node (graph.py lines 76-97): the same provider
construction followed by AssignmentAgent(provider=provider), which
raises TypeError before the assignment call is made. -/
def assign_tasks_node (env : Env) (s : WorkflowState) :
    Except String WorkflowState :=
  match create_provider env s.provider_type s.api_key s.model_name none with
  | .error e => .error e
  | .ok _ => .error assignAgentTypeError

/-- Embeds generate_notifications_node (graph.py lines 100-118):
NotificationAgent is the one agent whose constructor accepts the
provider keyword, so this node constructs the agent, runs its generate
call (propagating the exception generate may raise), and writes only
the notifications field — though no execution ever reaches this node.
`chain` abstracts the notification provider call. -/
def generate_notifications_node (env : Env)
    (chain : String → NotificationResult) (s : WorkflowState) :
    Except String WorkflowState :=
  match create_provider env s.provider_type s.api_key s.model_name none with
  | .error e => .error e
  | .ok _ =>
      match NotificationAgent.generate chain s.assignments with
      | .error e => .error e
      | .ok ns => .ok { s with notifications := ns }

/-- The four graph nodes registered by create_workflow (graph.py lines
126-129). -/
inductive Node where
  | analyze_issues
  | analyze_developers
  | assign_tasks
  | generate_notifications
  deriving DecidableEq, Repr

/-- The entry point set by create_workflow (graph.py line 132). -/
def entryPoint : Node := Node.analyze_issues

/-- The edge relation of create_workflow (graph.py lines 133-136); none
is the END sentinel. -/
def nextNode : Node → Option Node
  | .analyze_issues => some .analyze_developers
  | .analyze_developers => some .assign_tasks
  | .assign_tasks => some .generate_notifications
  | .generate_notifications => none

/-- The fallible state transformer each node applies. -/
def nodeFn (env : Env) (chain : String → NotificationResult) :
    Node → WorkflowState → Except String WorkflowState
  | .analyze_issues => analyze_issues_node env
  | .analyze_developers => analyze_developers_node env
  | .assign_tasks => assign_tasks_node env
  | .generate_notifications => generate_notifications_node env chain

/-- The node sequence the compiled graph executes: follow edges from a
node until END, with fuel bounding the walk (the workflow trace theorem
shows END is reached well within it). -/
def traceFrom : Nat → Option Node → List Node
  | _, none => []
  | 0, some _ => []
  | fuel + 1, some n => n :: traceFrom fuel (nextNode n)

/-- The execution order of the compiled workflow from its entry
point. -/
def workflowTrace : List Node := traceFrom 8 (some entryPoint)

/-- Run a node sequence in order over the shared state, stopping at the
first raised exception (sequential graph execution with exception
propagation to the caller). -/
def runNodes (env : Env) (chain : String → NotificationResult) :
    List Node → WorkflowState → Except String WorkflowState
  | [], s => .ok s
  | n :: rest, s =>
      match nodeFn env chain n s with
      | .error e => .error e
      | .ok s2 => runNodes env chain rest s2

/-- Embeds workflow.invoke: run the nodes of the execution trace in
order over the shared state. -/
def workflowInvoke (env : Env) (chain : String → NotificationResult)
    (s : WorkflowState) : Except String WorkflowState :=
  runNodes env chain workflowTrace s

/-- Embeds the initial_state dict of run_graph (graph.py lines
183-193). -/
def initialState (issues developers : List PyDict)
    (api_key model_name : Option String) (pt : String) : WorkflowState :=
  { issues := issues, developers := developers, analyzed_issues := [],
    analyzed_developers := [], assignments := [], notifications := [],
    api_key := api_key, model_name := model_name, provider_type := pt }

/-- Embeds run_graph (graph.py lines 141-201): resolve the provider
type (an explicit argument is kept as passed; only the environment
default is lowercased), pre-validate cloud credentials, build the
initial state, invoke the compiled workflow (propagating any exception
a node raises), and return the notifications field of the final
state. -/
def run_graph (env : Env) (chain : String → NotificationResult)
    (issues developers : List PyDict)
    (api_key model_name provider_type : Option String) :
    Except String (List PyDict) :=
  let pt := pyOrStr provider_type (pyLower (getenvD env "AI_PROVIDER" "openai"))
  if pt = "openai" ∧ truthy api_key = false ∧ truthy (env "OPENAI_API_KEY") = false then
    .error "OpenAI API key required. Set OPENAI_API_KEY or pass api_key parameter."
  else if pt = "gemini" ∧ truthy api_key = false ∧ truthy (env "GOOGLE_API_KEY") = false then
    .error "Google API key required. Set GOOGLE_API_KEY environment variable or pass api_key parameter."
  else
    match workflowInvoke env chain (initialState issues developers api_key model_name pt) with
    | .error e => .error e
    | .ok final => .ok final.notifications

theorem analyze_issues_node_raises (env : Env) (s : WorkflowState) :
    ∃ e, analyze_issues_node env s = Except.error e := by
  unfold analyze_issues_node
  rcases h : create_provider env s.provider_type s.api_key s.model_name none with e | p
  · exact ⟨e, rfl⟩
  · exact ⟨issueAnalyzerTypeError, rfl⟩

theorem workflowInvoke_raises (env : Env) (chain : String → NotificationResult)
    (s : WorkflowState) : ∃ e, workflowInvoke env chain s = Except.error e := by
  obtain ⟨e, he⟩ := analyze_issues_node_raises env s
  refine ⟨e, ?_⟩
  unfold workflowInvoke
  have ht : workflowTrace = [Node.analyze_issues, Node.analyze_developers,
      Node.assign_tasks, Node.generate_notifications] := rfl
  rw [ht]
  simp only [runNodes, nodeFn]
  rw [he]

/-- A notification chain returning an empty response, for the concrete
run. -/
def emptyNotifChain : String → NotificationResult :=
  fun _ => { notifications := [] }

/-- C4: the claim fails on the code.  create_workflow does wire the
four stages in the claimed fixed linear order with END after the last,
but no run ever executes them: every run_graph invocation fails, the
ones passing credential pre-validation failing inside the first node,
where IssueAnalyzer is constructed with a provider keyword its
constructor does not declare (TypeError; create_provider may error
first for an unusable configuration).  No stage writes its state field
and no notifications list is ever returned. -/
theorem run_graph_always_raises :
    workflowTrace = [Node.analyze_issues, Node.analyze_developers,
      Node.assign_tasks, Node.generate_notifications] ∧
    nextNode Node.generate_notifications = none ∧
    (∀ (env : Env) (chain : String → NotificationResult)
      (issues developers : List PyDict)
      (api_key model_name provider_type : Option String),
      isErr (run_graph env chain issues developers api_key model_name provider_type)
        = true) ∧
    run_graph env0 emptyNotifChain [] [] none none (some "ollama") =
      .error issueAnalyzerTypeError := by
  refine ⟨rfl, rfl, ?_, rfl⟩
  intro env chain issues developers api_key model_name provider_type
  simp only [run_graph]
  split_ifs
  all_goals first
    | rfl
    | (rcases workflowInvoke_raises env chain
          (initialState issues developers api_key model_name
            (pyOrStr provider_type (pyLower (getenvD env "AI_PROVIDER" "openai"))))
        with ⟨e, he⟩
       rw [he]
       rfl)

end TaskAssigner
